import Mathlib

/-!
# s3server: the request handler and its two cache tiers

A shallow embedding of `handler` from `s3server.go`.  Bytes are natural
numbers, byte slices carry their capacity, and every call that leaves the
process (the RAM cache, the disk cache, the S3 client, the hash and the gob
codec) is a field of an explicit environment.  The handler returns the state
of the response writer together with the ordered list of external calls it
made, and records whether it returned or panicked.
-/

namespace S3Server

/-! ## Data model -/

/-- Media keeps the metadata of an object together with its binary content
(`type Media struct`). -/
structure Media where
  Key : List Nat
  ContentType : String
  ETag : String
  Body : List Nat
  deriving DecidableEq

/-- A Go `[]byte` value: its elements and the room left in the backing array
beyond its length.  A slice expression `v[0:n]` is checked against the
capacity, not the length. -/
structure ByteSlice where
  data : List Nat
  spare : Nat
  deriving DecidableEq

/-- The capacity `cap(v)` of a slice. -/
def ByteSlice.cap (v : ByteSlice) : Nat := v.data.length + v.spare

/-- The `encoding/gob` codec for `Media`.  `encode m` is the content of the
buffer after `gob.NewEncoder(buf).Encode(m)`; `decode bs` is `some m` when
`gob.NewDecoder(buf).Decode(&media)` returns a nil error and leaves `m` in
`media`.  Nothing is assumed about either function: in particular a stream
of fewer than six bytes may decode, as the two bytes 1, 36 do with
`encoding/gob` (a value of the built-in type `CommonType`, none of whose
fields belongs to `Media`, which leaves `media` at its zero value). -/
structure Gob where
  encode : Media → List Nat
  decode : List Nat → Option Media

/-- Result of `ramCache.Get(key)`: a value with a nil error, the error
`freecache.ErrNotFound`, or any other error. -/
inductive RamGetResult where
  | hit (value : ByteSlice)
  | errNotFound
  | otherErr
  deriving DecidableEq

/-- Result of `diskCache.Get(keystr)` followed by `ioutil.ReadAll`: either
`Get` returned an error, or it returned a reader and `ReadAll` produced
`value` and possibly an error (`readErr`). -/
inductive DiskGetResult where
  | err
  | ok (value : ByteSlice) (readErr : Bool)
  deriving DecidableEq

/-- The error of `svc.GetObject`: an `awserr.Error` with its code, or an error
of another type. -/
inductive GetObjectError where
  | awsErr (code : String)
  | other
  deriving DecidableEq

/-- The fields of `s3.GetObjectOutput` the handler reads.  `ContentType` and
`ETag` are pointers (`none` is nil); `Body` is what `ioutil.ReadAll` yields
from the body stream. -/
structure GetObjectOutput where
  ContentType : Option String
  ETag : Option String
  Body : List Nat
  deriving DecidableEq

/-- Everything outside the handler: the hash, the configured bucket, and the
answers of the two cache tiers and of S3.  `ramSet` is `true` when
`ramCache.Set` returns a nil error. -/
structure Env where
  sha1Sum : String → List Nat
  s3Bucket : String
  ramGet : List Nat → RamGetResult
  diskGet : String → DiskGetResult
  getObject : String → String → Except GetObjectError GetObjectOutput
  ramSet : List Nat → List Nat → Nat → Bool

/-- The two values the handler reads from `r.URL`. -/
structure Request where
  escapedPath : String
  requestURI : String
  deriving DecidableEq

/-- One call made to a cache tier or to the origin. -/
inductive Event where
  | ramGet (key : List Nat)
  | diskGet (keystr : String)
  | getObject (bucket key : String)
  | ramSet (key value : List Nat) (expireSeconds : Nat)
  | diskPut (keystr : String) (value : List Nat)
  deriving DecidableEq

/-- The observable state of an `http.ResponseWriter`: the header map, the
status line once it has been written, and the body written so far. -/
structure ResponseWriter where
  header : List (String × String)
  status : Option Nat
  body : List Nat
  deriving DecidableEq

/-- A fresh response writer. -/
def ResponseWriter.new : ResponseWriter := ⟨[], none, []⟩

/-- Model of `w.Header().Set(k, v)`: replaces the values stored under `k`.
Changes made after the status line went out are not sent. -/
def ResponseWriter.setHeader (w : ResponseWriter) (k v : String) : ResponseWriter :=
  match w.status with
  | none => { w with header := w.header.filter (fun kv => kv.1 ≠ k) ++ [(k, v)] }
  | some _ => w

/-- Model of `w.WriteHeader(code)`: the first call fixes the status. -/
def ResponseWriter.writeHeader (w : ResponseWriter) (code : Nat) : ResponseWriter :=
  match w.status with
  | none => { w with status := some code }
  | some _ => w

/-- Model of `w.Write(b)`: sends status 200 first when none was written. -/
def ResponseWriter.write (w : ResponseWriter) (b : List Nat) : ResponseWriter :=
  { (w.writeHeader 200) with body := w.body ++ b }

/-- The header value stored under `k`, if any. -/
def ResponseWriter.headerValue (w : ResponseWriter) (k : String) : Option String :=
  (w.header.find? (fun kv => kv.1 = k)).map Prod.snd

/-- How a run of the handler ended. -/
inductive Exit where
  | returned
  | panicked
  deriving DecidableEq

/-- The result of one run of the handler. -/
structure Outcome where
  exit : Exit
  w : ResponseWriter
  trace : List Event
  deriving DecidableEq

/-! ## Constants and helpers -/

/-- The constant `http.StatusNotFound`. -/
def StatusNotFound : Nat := 404

/-- The constant `http.StatusInternalServerError`. -/
def StatusInternalServerError : Nat := 500

/-- The constant `s3.ErrCodeNoSuchKey`. -/
def ErrCodeNoSuchKey : String := "NoSuchKey"

/-- The conversion `[]byte(s)` of an ASCII string literal. -/
def bytesOf (s : String) : List Nat := s.toList.map Char.toNat

/-- One lowercase hexadecimal digit. -/
def hexDigit (n : Nat) : Char := "0123456789abcdef".toList.getD n '0'

/-- Model of `fmt.Sprintf("%x", key)` on a byte slice: two lowercase
hexadecimal digits per byte. -/
def sprintfHex (key : List Nat) : String :=
  String.mk (key.flatMap fun b => [hexDigit (b / 16 % 16), hexDigit (b % 16)])

/-! ## The handler -/

/-- Lines 89-92 and 109-112: answer from a decoded cache entry. -/
def respondCached (w : ResponseWriter) (media : Media) : ResponseWriter :=
  ((w.setHeader "ContentType" media.ContentType).setHeader "ETag" media.ETag).write media.Body

/-- Lines 161-210 of `handler`, entered with `contentType = *result.ContentType`:
the directory check, the construction and encoding of `media`, the write to
the RAM cache with its fall-back to the disk cache, and the response. -/
def storeAndRespond (g : Gob) (env : Env) (key : List Nat) (result : GetObjectOutput)
    (contentType : String) (w : ResponseWriter) (trace : List Event) : Outcome :=
  if contentType = "application/x-directory" then
    ⟨.returned, (w.writeHeader StatusNotFound).write (bytesOf "404 - File Not Found"), trace⟩
  else
    let media : Media := { Key := key, ContentType := contentType, ETag := "", Body := [] }
    let media : Media :=
      match result.ETag with
      | some etag => { media with ETag := etag }
      | none => media
    let media : Media := { media with Body := result.Body }
    let encBuf := g.encode media
    let trace := trace ++ [Event.ramSet key encBuf 0]
    let trace :=
      if env.ramSet key encBuf 0 then trace
      else
        let keystr := sprintfHex key
        trace ++ [Event.diskPut keystr encBuf]
    let w := w.setHeader "ContentType" contentType
    let w :=
      match result.ETag with
      | some etag => w.setHeader "ETag" etag
      | none => w
    ⟨.returned, w.write media.Body, trace⟩

/-- Lines 117-211 of `handler`: the part reached when neither cache tier
answered.  After the nil check of line 154 the code dereferences
`result.ContentType`; a nil pointer panics there. -/
def fetchFromOrigin (g : Gob) (env : Env) (s3Key : String) (key : List Nat)
    (w : ResponseWriter) (trace : List Event) : Outcome :=
  let trace := trace ++ [Event.getObject env.s3Bucket s3Key]
  match env.getObject env.s3Bucket s3Key with
  | .error (.awsErr code) =>
    if code = ErrCodeNoSuchKey then
      ⟨.returned, (w.writeHeader StatusNotFound).write (bytesOf "404 - File Not Found"), trace⟩
    else
      ⟨.returned,
        (w.writeHeader StatusInternalServerError).write (bytesOf "500 - Internal Server Error"),
        trace⟩
  | .error .other =>
    ⟨.returned,
      (w.writeHeader StatusInternalServerError).write (bytesOf "500 - Internal Server Error"),
      trace⟩
  | .ok result =>
    if result.ContentType ≠ none then
      ⟨.returned,
        (w.writeHeader StatusInternalServerError).write (bytesOf "500 - Internal server error"),
        trace⟩
    else
      match result.ContentType with
      | none => ⟨.panicked, w, trace⟩
      | some contentType => storeAndRespond g env key result contentType w trace

/-- The function `handler`.  The slice expressions `value[0:6]` of lines 81
and 101 panic when the capacity of `value` is below six; their result is only
logged. -/
def handler (g : Gob) (env : Env) (r : Request) : Outcome :=
  let s3Key := r.escapedPath
  let requestURI := r.requestURI
  let key := env.sha1Sum requestURI
  let keystr := sprintfHex key
  let w := ResponseWriter.new
  let trace := [Event.ramGet key]
  match env.ramGet key with
  | .errNotFound =>
    let trace := trace ++ [Event.diskGet keystr]
    match env.diskGet keystr with
    | .err => fetchFromOrigin g env s3Key key w trace
    | .ok value _ =>
      if value.cap < 6 then ⟨.panicked, w, trace⟩
      else
        match g.decode value.data with
        | none => fetchFromOrigin g env s3Key key w trace
        | some media => ⟨.returned, respondCached w media, trace⟩
  | .otherErr => fetchFromOrigin g env s3Key key w trace
  | .hit value =>
    if value.cap < 6 then ⟨.panicked, w, trace⟩
    else
      match g.decode value.data with
      | none => fetchFromOrigin g env s3Key key w trace
      | some media => ⟨.returned, respondCached w media, trace⟩

/-! ## Concrete inputs

A small codec and a few environments on which the handler is evaluated. -/

/-- Encoder of a small stand-in codec: a three-byte tag, the lengths of the
key, the content type and the etag, then the four fields. -/
def sampleEncode (m : Media) : List Nat :=
  [103, 111, 98, m.Key.length, m.ContentType.length, m.ETag.length]
    ++ m.Key ++ bytesOf m.ContentType ++ bytesOf m.ETag ++ m.Body

/-- Decoder of the stand-in codec.  Like `encoding/gob` it decodes the two
bytes 1, 36 to the zero media; otherwise it fails on input without the tag or
shorter than the six-byte prefix. -/
def sampleDecode (bs : List Nat) : Option Media :=
  if bs = [1, 36] then some { Key := [], ContentType := "", ETag := "", Body := [] }
  else if bs.take 3 = [103, 111, 98] ∧ 6 ≤ bs.length then
    let kl := bs.getD 3 0
    let cl := bs.getD 4 0
    let el := bs.getD 5 0
    let rest := bs.drop 6
    some
      { Key := rest.take kl
        ContentType := String.mk (((rest.drop kl).take cl).map Char.ofNat)
        ETag := String.mk (((rest.drop (kl + cl)).take el).map Char.ofNat)
        Body := rest.drop (kl + cl + el) }
  else none

/-- A concrete codec used to run the handler on concrete inputs. -/
def sampleGob : Gob := ⟨sampleEncode, sampleDecode⟩

/-- SHA-1 digest of the string "/images/cat.png". -/
def catKey : List Nat :=
  [0xff, 0x7f, 0x5f, 0x24, 0x4a, 0x1f, 0x3e, 0x20, 0x9b, 0xa3,
   0x1f, 0xaa, 0xed, 0x9f, 0x85, 0x4e, 0xf9, 0xf1, 0xa9, 0xc8]

/-- SHA-1 digest of the string "/missing.txt". -/
def missingKey : List Nat :=
  [0x22, 0x76, 0x3f, 0x49, 0xd6, 0xc3, 0x3e, 0x53, 0x7a, 0x61,
   0x59, 0xd0, 0x17, 0x9a, 0x0c, 0x1c, 0x96, 0x22, 0x64, 0x03]

/-- SHA-1 digest of the string "/dir/". -/
def dirKey : List Nat :=
  [0x52, 0xdb, 0xbc, 0x73, 0x34, 0x10, 0x77, 0x04, 0x35, 0x67,
   0xee, 0x69, 0x71, 0x13, 0xae, 0x7b, 0x99, 0xa1, 0x68, 0x08]

/-- The hash on the three request URIs used below. -/
def sampleSha1 (uri : String) : List Nat :=
  if uri = "/missing.txt" then missingKey
  else if uri = "/dir/" then dirKey
  else catKey

/-- The request for "/images/cat.png". -/
def catRequest : Request := ⟨"/images/cat.png", "/images/cat.png"⟩

/-- The request for "/missing.txt". -/
def missingRequest : Request := ⟨"/missing.txt", "/missing.txt"⟩

/-- The request for "/dir/". -/
def dirRequest : Request := ⟨"/dir/", "/dir/"⟩

/-- The object the origin holds for the cat picture. -/
def catObject : GetObjectOutput := ⟨some "image/png", some "abc123", [0xFF, 0xD8]⟩

/-- Both tiers miss and the origin answers with `result`. -/
def envOrigin (result : Except GetObjectError GetObjectOutput) : Env where
  sha1Sum := sampleSha1
  s3Bucket := "bucket"
  ramGet := fun _ => .errNotFound
  diskGet := fun _ => .err
  getObject := fun _ _ => result
  ramSet := fun _ _ _ => true

/-- The RAM cache answers `ram`; the disk cache has nothing and the origin
reports a missing key. -/
def envRam (ram : RamGetResult) : Env where
  sha1Sum := sampleSha1
  s3Bucket := "bucket"
  ramGet := fun _ => ram
  diskGet := fun _ => .err
  getObject := fun _ _ => .error (.awsErr ErrCodeNoSuchKey)
  ramSet := fun _ _ _ => true

/-- Both tiers miss, the origin holds the cat picture and the RAM cache
rejects every `Set`. -/
def envRamFull : Env where
  sha1Sum := sampleSha1
  s3Bucket := "bucket"
  ramGet := fun _ => .errNotFound
  diskGet := fun _ => .err
  getObject := fun _ _ => .ok catObject
  ramSet := fun _ _ _ => false

/-- The cat picture as a cache entry. -/
def catMedia : Media := ⟨catKey, "image/png", "abc123", [0xFF, 0xD8]⟩

/-- A cached picture whose origin gave no etag. -/
def catMediaNoETag : Media := ⟨catKey, "image/png", "", [0xFF, 0xD8]⟩

/-! ## Shared lemmas -/

/-- A successful origin answer that carries a content type takes the branch of
line 154 and is answered with status 500. -/
theorem fetchFromOrigin_contentType_some (g : Gob) (env : Env) (s3Key : String)
    (key : List Nat) (w : ResponseWriter) (trace : List Event) (result : GetObjectOutput)
    (ct : String) (hres : env.getObject env.s3Bucket s3Key = .ok result)
    (hct : result.ContentType = some ct) :
    fetchFromOrigin g env s3Key key w trace =
      ⟨.returned,
        (w.writeHeader StatusInternalServerError).write (bytesOf "500 - Internal server error"),
        trace ++ [Event.getObject env.s3Bucket s3Key]⟩ := by
  simp [fetchFromOrigin, hres, hct]

/-- A successful origin answer without a content type passes the check of line
154 and panics on the dereference of line 161. -/
theorem fetchFromOrigin_contentType_none (g : Gob) (env : Env) (s3Key : String)
    (key : List Nat) (w : ResponseWriter) (trace : List Event) (result : GetObjectOutput)
    (hres : env.getObject env.s3Bucket s3Key = .ok result)
    (hct : result.ContentType = none) :
    fetchFromOrigin g env s3Key key w trace =
      ⟨.panicked, w, trace ++ [Event.getObject env.s3Bucket s3Key]⟩ := by
  simp [fetchFromOrigin, hres, hct]

/-- The origin part of the handler makes exactly one external call, the
`GetObject` request: the cache writes of lines 191 and 197 are never reached
from it. -/
theorem fetchFromOrigin_trace (g : Gob) (env : Env) (s3Key : String) (key : List Nat)
    (w : ResponseWriter) (trace : List Event) :
    (fetchFromOrigin g env s3Key key w trace).trace
      = trace ++ [Event.getObject env.s3Bucket s3Key] := by
  unfold fetchFromOrigin
  cases hres : env.getObject env.s3Bucket s3Key with
  | error e =>
    cases e with
    | awsErr code => by_cases hc : code = ErrCodeNoSuchKey <;> simp [hc]
    | other => simp
  | ok result =>
    cases hct : result.ContentType with
    | none => simp [hct]
    | some ct => simp [hct]

/-- A failed origin request is answered with status 404 when the error code
is `NoSuchKey` and with status 500 otherwise; no further call is made. -/
theorem fetchFromOrigin_error (g : Gob) (env : Env) (s3Key : String) (key : List Nat)
    (w : ResponseWriter) (trace : List Event) (e : GetObjectError)
    (hres : env.getObject env.s3Bucket s3Key = .error e) :
    fetchFromOrigin g env s3Key key w trace =
      ⟨.returned,
        if e = .awsErr ErrCodeNoSuchKey then
          (w.writeHeader StatusNotFound).write (bytesOf "404 - File Not Found")
        else
          (w.writeHeader StatusInternalServerError).write (bytesOf "500 - Internal Server Error"),
        trace ++ [Event.getObject env.s3Bucket s3Key]⟩ := by
  unfold fetchFromOrigin
  cases e with
  | awsErr code => by_cases hc : code = ErrCodeNoSuchKey <;> simp [hres, hc]
  | other => simp [hres]

/-- Writing a status and then a body on a fresh writer leaves that status. -/
theorem status_writeHeader_write (code : Nat) (b : List Nat) :
    ((ResponseWriter.new.writeHeader code).write b).status = some code := by
  simp [ResponseWriter.new, ResponseWriter.writeHeader, ResponseWriter.write]

/-- The response built from a cache entry on a fresh writer. -/
theorem respondCached_new (media : Media) :
    respondCached ResponseWriter.new media =
      ⟨[("ContentType", media.ContentType), ("ETag", media.ETag)], some 200, media.Body⟩ := by
  simp [respondCached, ResponseWriter.new, ResponseWriter.setHeader, ResponseWriter.writeHeader,
    ResponseWriter.write]

/-- A disk cache entry in a slice of capacity at least six that fails to
decode, whether or not the read itself failed, is passed over: the handler
continues with the origin request. -/
theorem handler_corrupt_disk_entry (g : Gob) (env : Env) (r : Request) (v : ByteSlice)
    (readErr : Bool)
    (hram : env.ramGet (env.sha1Sum r.requestURI) = .errNotFound)
    (hdisk : env.diskGet (sprintfHex (env.sha1Sum r.requestURI)) = .ok v readErr)
    (hcap : 6 ≤ v.cap)
    (hdec : g.decode v.data = none) :
    handler g env r =
      fetchFromOrigin g env r.escapedPath (env.sha1Sum r.requestURI) ResponseWriter.new
        [Event.ramGet (env.sha1Sum r.requestURI),
          Event.diskGet (sprintfHex (env.sha1Sum r.requestURI))] := by
  have hcap2 : ¬ v.cap < 6 := by omega
  simp [handler, hram, hdisk, hdec, hcap2]

/-- A disk cache entry in a slice of capacity at least six that decodes is
served with status 200 after the two cache reads, without any origin
request. -/
theorem handler_disk_hit (g : Gob) (env : Env) (r : Request) (v : ByteSlice)
    (readErr : Bool) (m : Media)
    (hram : env.ramGet (env.sha1Sum r.requestURI) = .errNotFound)
    (hdisk : env.diskGet (sprintfHex (env.sha1Sum r.requestURI)) = .ok v readErr)
    (hcap6 : 6 ≤ v.cap)
    (hdec : g.decode v.data = some m) :
    handler g env r =
      ⟨.returned, ⟨[("ContentType", m.ContentType), ("ETag", m.ETag)], some 200, m.Body⟩,
        [Event.ramGet (env.sha1Sum r.requestURI),
          Event.diskGet (sprintfHex (env.sha1Sum r.requestURI))]⟩ := by
  have hcap : ¬ v.cap < 6 := by omega
  simp [handler, hram, hdisk, hdec, hcap, respondCached_new]

/-- No run of the handler writes to a cache tier: every trace consists of
cache reads and at most one origin request. -/
theorem handler_never_writes (g : Gob) (env : Env) (r : Request) :
    (∀ k v x, Event.ramSet k v x ∉ (handler g env r).trace) ∧
    (∀ k v, Event.diskPut k v ∉ (handler g env r).trace) := by
  cases hram : env.ramGet (env.sha1Sum r.requestURI) with
  | errNotFound =>
    cases hdisk : env.diskGet (sprintfHex (env.sha1Sum r.requestURI)) with
    | err => simp [handler, hram, hdisk, fetchFromOrigin_trace]
    | ok value readErr =>
      by_cases hcap : value.cap < 6
      · simp [handler, hram, hdisk, hcap]
      · cases hdec : g.decode value.data <;>
          simp [handler, hram, hdisk, hcap, hdec, fetchFromOrigin_trace]
  | otherErr => simp [handler, hram, fetchFromOrigin_trace]
  | hit value =>
    by_cases hcap : value.cap < 6
    · simp [handler, hram, hcap]
    · cases hdec : g.decode value.data <;>
        simp [handler, hram, hcap, hdec, fetchFromOrigin_trace]

/-- A RAM cache entry in a slice of capacity at least six that decodes to
`m` is served with status 200, the content type, etag and body stored in `m`,
and no call other than the RAM cache read. -/
theorem handler_ram_hit (g : Gob) (env : Env) (r : Request) (v : ByteSlice) (m : Media)
    (hram : env.ramGet (env.sha1Sum r.requestURI) = .hit v)
    (hcap6 : 6 ≤ v.cap)
    (hdec : g.decode v.data = some m) :
    handler g env r =
      ⟨.returned, ⟨[("ContentType", m.ContentType), ("ETag", m.ETag)], some 200, m.Body⟩,
        [Event.ramGet (env.sha1Sum r.requestURI)]⟩ := by
  have hcap : ¬ v.cap < 6 := by omega
  simp [handler, hram, hdec, hcap, respondCached_new]

/-- A RAM cache entry in a slice of capacity below six makes the handler
panic, whatever the codec would decode from it. -/
theorem handler_ram_hit_short (g : Gob) (env : Env) (r : Request) (v : ByteSlice)
    (hram : env.ramGet (env.sha1Sum r.requestURI) = .hit v)
    (hcap : v.cap < 6) :
    handler g env r =
      ⟨.panicked, ResponseWriter.new, [Event.ramGet (env.sha1Sum r.requestURI)]⟩ := by
  simp [handler, hram, hcap]

/-- Every character produced by `hexDigit` is a lowercase hexadecimal digit. -/
theorem hexDigit_mem (n : Nat) : hexDigit n ∈ "0123456789abcdef".toList := by
  by_cases h : n < 16
  · interval_cases n <;> decide
  · have h16 : ("0123456789abcdef".toList).length ≤ n := by
      have : ("0123456789abcdef".toList).length = 16 := by decide
      omega
    unfold hexDigit
    rw [List.getD_eq_default _ _ h16]
    decide

/-- The hexadecimal form of a key has two lowercase digits per byte. -/
theorem sprintfHex_shape (key : List Nat) :
    (sprintfHex key).length = 2 * key.length ∧
      ∀ c ∈ (sprintfHex key).toList, c ∈ "0123456789abcdef".toList := by
  constructor
  · unfold sprintfHex
    induction key with
    | nil => rfl
    | cons b bs ih =>
      simp only [String.length, List.flatMap_cons, List.length_append, List.length_cons,
        List.length_nil] at ih ⊢
      omega
  · intro c hc
    simp only [sprintfHex, String.toList, List.mem_flatMap, List.mem_cons, List.mem_singleton,
      List.not_mem_nil, or_false] at hc
    obtain ⟨b, -, hb | hb⟩ := hc
    · rw [hb]; exact hexDigit_mem _
    · rw [hb]; exact hexDigit_mem _

/-- What lines 167-202 would do once entered with a content type `ct` other
than the directory marker: one `Set` on the RAM cache with the raw key, the
encoded media and expiry 0, followed by one `Put` on the disk cache under
`sprintfHex key` exactly when the `Set` is rejected.  No run of `handler`
enters these lines (`handler_never_writes`). -/
theorem storeAndRespond_trace (g : Gob) (env : Env) (key : List Nat)
    (result : GetObjectOutput) (ct : String) (w : ResponseWriter) (trace : List Event)
    (hdir : ct ≠ "application/x-directory") :
    (storeAndRespond g env key result ct w trace).trace =
      trace ++
        Event.ramSet key (g.encode ⟨key, ct, result.ETag.getD "", result.Body⟩) 0 ::
          (if env.ramSet key (g.encode ⟨key, ct, result.ETag.getD "", result.Body⟩) 0 then []
           else [Event.diskPut (sprintfHex key)
                  (g.encode ⟨key, ct, result.ETag.getD "", result.Body⟩)]) := by
  unfold storeAndRespond
  cases hetag : result.ETag with
  | none =>
    by_cases hset : env.ramSet key (g.encode ⟨key, ct, "", result.Body⟩) 0 <;>
      simp [hdir, hset]
  | some etag =>
    by_cases hset : env.ramSet key (g.encode ⟨key, ct, etag, result.Body⟩) 0 <;>
      simp [hdir, hset]

/-! ## The origin path -/

/-- C1, evaluated on the code: both tiers miss for "/images/cat.png" and the
origin returns content type "image/png", etag "abc123" and a two-byte body.
The handler answers with status 500 and the text "500 - Internal server
error", sets no header, and makes no call after `GetObject`. -/
theorem origin_hit_with_content_type_yields_500 (g : Gob) :
    handler g (envOrigin (.ok catObject)) catRequest =
      ⟨.returned, ⟨[], some 500, bytesOf "500 - Internal server error"⟩,
        [Event.ramGet catKey, Event.diskGet "ff7f5f244a1f3e209ba31faaed9f854ef9f1a9c8",
          Event.getObject "bucket" "/images/cat.png"]⟩ := by
  rfl

/-- C2: when the RAM cache reports `ErrNotFound`, the disk cache returns an
error and `GetObject` fails with `e`, the handler returns with status 404 if
`e` is an AWS error with code `NoSuchKey` and with status 500 for every other
`e`; its only calls are the two cache reads and the origin request, so there
is no `Set` on the RAM cache and no `Put` on the disk cache. -/
theorem origin_failure_status (g : Gob) (env : Env) (r : Request) (e : GetObjectError)
    (hram : env.ramGet (env.sha1Sum r.requestURI) = .errNotFound)
    (hdisk : env.diskGet (sprintfHex (env.sha1Sum r.requestURI)) = .err)
    (horigin : env.getObject env.s3Bucket r.escapedPath = .error e) :
    (handler g env r).exit = .returned ∧
    (handler g env r).w.status = some (if e = .awsErr "NoSuchKey" then 404 else 500) ∧
    (handler g env r).trace =
      [Event.ramGet (env.sha1Sum r.requestURI),
        Event.diskGet (sprintfHex (env.sha1Sum r.requestURI)),
        Event.getObject env.s3Bucket r.escapedPath] ∧
    (∀ k v x, Event.ramSet k v x ∉ (handler g env r).trace) ∧
    (∀ k v, Event.diskPut k v ∉ (handler g env r).trace) := by
  have hrun : handler g env r =
      fetchFromOrigin g env r.escapedPath (env.sha1Sum r.requestURI) ResponseWriter.new
        [Event.ramGet (env.sha1Sum r.requestURI),
          Event.diskGet (sprintfHex (env.sha1Sum r.requestURI))] := by
    simp [handler, hram, hdisk]
  rw [hrun, fetchFromOrigin_error g env _ _ _ _ e horigin]
  refine ⟨rfl, ?_, by simp, by simp, by simp⟩
  by_cases he : e = .awsErr "NoSuchKey"
  · have he2 : e = .awsErr ErrCodeNoSuchKey := he
    simp only [he2, if_true]
    exact status_writeHeader_write _ _
  · have he2 : ¬ e = .awsErr ErrCodeNoSuchKey := he
    simp only [he, he2, if_false]
    exact status_writeHeader_write _ _

/-- Witness of C2: "/missing.txt" with both tiers missing and the origin
reporting `NoSuchKey` is answered with 404 and leaves both tiers untouched. -/
theorem origin_failure_status_witness :
    (handler sampleGob (envOrigin (.error (.awsErr "NoSuchKey"))) missingRequest).exit
      = .returned ∧
    (handler sampleGob (envOrigin (.error (.awsErr "NoSuchKey"))) missingRequest).w.status
      = some 404 ∧
    (∀ k v x, Event.ramSet k v x ∉
      (handler sampleGob (envOrigin (.error (.awsErr "NoSuchKey"))) missingRequest).trace) ∧
    (∀ k v, Event.diskPut k v ∉
      (handler sampleGob (envOrigin (.error (.awsErr "NoSuchKey"))) missingRequest).trace) := by
  have h := origin_failure_status sampleGob (envOrigin (.error (.awsErr "NoSuchKey")))
    missingRequest (.awsErr "NoSuchKey") rfl rfl rfl
  exact ⟨h.1, h.2.1, h.2.2.2.1, h.2.2.2.2⟩

/-- C3, evaluated on the code: both tiers miss for "/images/cat.png" and the
origin answers successfully with a nil content type.  The handler passes the
check of line 154, panics on the dereference of line 161 and has written
neither a status nor a body. -/
theorem origin_nil_content_type_panics (g : Gob) :
    handler g (envOrigin (.ok ⟨none, some "abc123", [0xFF, 0xD8]⟩)) catRequest =
      ⟨.panicked, ⟨[], none, []⟩,
        [Event.ramGet catKey, Event.diskGet "ff7f5f244a1f3e209ba31faaed9f854ef9f1a9c8",
          Event.getObject "bucket" "/images/cat.png"]⟩ := by
  rfl

/-- C4, evaluated on the code: both tiers miss for "/dir/" and the origin
answers with content type "application/x-directory".  The handler answers
with status 500, not 404. -/
theorem origin_directory_yields_500 (g : Gob) :
    handler g (envOrigin (.ok ⟨some "application/x-directory", none, []⟩)) dirRequest =
      ⟨.returned, ⟨[], some 500, bytesOf "500 - Internal server error"⟩,
        [Event.ramGet dirKey, Event.diskGet "52dbbc73341077043567ee697113ae7b99a16808",
          Event.getObject "bucket" "/dir/"]⟩ := by
  rfl

/-! ## The cache paths -/

/-- C5, evaluated on the code: the RAM cache returns the two bytes 1, 36 in
a slice without spare capacity, and they decode (to the zero media).  The
handler panics on the slice expression of line 101 before it decodes
anything: it writes no status, no header and no body. -/
theorem decodable_short_ram_hit_panics :
    sampleGob.decode [1, 36] = some ⟨[], "", "", []⟩ ∧
    handler sampleGob (envRam (.hit ⟨[1, 36], 0⟩)) catRequest =
      ⟨.panicked, ⟨[], none, []⟩, [Event.ramGet catKey]⟩ := by
  decide

/-- C6, evaluated on the code: both tiers miss for "/images/cat.png", the
origin returns the cat picture and the RAM cache would reject a `Set`.  The
handler answers 500 after the origin request and makes no further call: the
RAM cache receives no `Set` and the disk cache no `Put`. -/
theorem origin_hit_never_populates (g : Gob) :
    (handler g envRamFull catRequest).trace =
      [Event.ramGet catKey, Event.diskGet "ff7f5f244a1f3e209ba31faaed9f854ef9f1a9c8",
        Event.getObject "bucket" "/images/cat.png"] ∧
    (handler g envRamFull catRequest).w.status = some 500 ∧
    (∀ k v x, Event.ramSet k v x ∉ (handler g envRamFull catRequest).trace) ∧
    (∀ k v, Event.diskPut k v ∉ (handler g envRamFull catRequest).trace) := by
  have hrun : handler g envRamFull catRequest =
      ⟨.returned, ⟨[], some 500, bytesOf "500 - Internal server error"⟩,
        [Event.ramGet catKey, Event.diskGet "ff7f5f244a1f3e209ba31faaed9f854ef9f1a9c8",
          Event.getObject "bucket" "/images/cat.png"]⟩ := rfl
  rw [hrun]
  simp

/-- C7, refuted as stated: the RAM cache returns eight bytes that do not
decode; the handler makes no disk read and goes to the origin. -/
theorem corrupt_ram_hit_disk_get_cex :
    (envRam (.hit ⟨[1, 2, 3, 4, 5, 6, 7, 8], 0⟩)).ramGet
        ((envRam (.hit ⟨[1, 2, 3, 4, 5, 6, 7, 8], 0⟩)).sha1Sum catRequest.requestURI)
      = .hit ⟨[1, 2, 3, 4, 5, 6, 7, 8], 0⟩ ∧
    sampleGob.decode [1, 2, 3, 4, 5, 6, 7, 8] = none ∧
    Event.diskGet (sprintfHex catKey) ∉
      (handler sampleGob (envRam (.hit ⟨[1, 2, 3, 4, 5, 6, 7, 8], 0⟩)) catRequest).trace ∧
    (handler sampleGob (envRam (.hit ⟨[1, 2, 3, 4, 5, 6, 7, 8], 0⟩)) catRequest).trace
      = [Event.ramGet catKey, Event.getObject "bucket" "/images/cat.png"] := by
  decide

/-- C7, amended: when the RAM cache returns bytes in a slice of capacity at
least six that fail to decode, the handler makes no disk read at all; its
calls are the RAM cache read followed directly by the origin request. -/
theorem corrupt_ram_hit_goes_to_origin (g : Gob) (env : Env) (r : Request) (v : ByteSlice)
    (hram : env.ramGet (env.sha1Sum r.requestURI) = .hit v)
    (hcap : 6 ≤ v.cap)
    (hdec : g.decode v.data = none) :
    (handler g env r).trace =
      [Event.ramGet (env.sha1Sum r.requestURI), Event.getObject env.s3Bucket r.escapedPath] ∧
    ∀ keystr, Event.diskGet keystr ∉ (handler g env r).trace := by
  have hcap2 : ¬ v.cap < 6 := by omega
  have hrun : handler g env r =
      fetchFromOrigin g env r.escapedPath (env.sha1Sum r.requestURI) ResponseWriter.new
        [Event.ramGet (env.sha1Sum r.requestURI)] := by
    simp [handler, hram, hdec, hcap2]
  rw [hrun, fetchFromOrigin_trace]
  simp

/-- Witness of C7 amended: eight undecodable bytes in the RAM cache. -/
theorem corrupt_ram_hit_goes_to_origin_witness :
    (handler sampleGob (envRam (.hit ⟨[1, 2, 3, 4, 5, 6, 7, 8], 0⟩)) catRequest).trace =
      [Event.ramGet catKey, Event.getObject "bucket" "/images/cat.png"] ∧
    ∀ keystr, Event.diskGet keystr ∉
      (handler sampleGob (envRam (.hit ⟨[1, 2, 3, 4, 5, 6, 7, 8], 0⟩)) catRequest).trace :=
  corrupt_ram_hit_goes_to_origin sampleGob (envRam (.hit ⟨[1, 2, 3, 4, 5, 6, 7, 8], 0⟩))
    catRequest ⟨[1, 2, 3, 4, 5, 6, 7, 8], 0⟩ rfl (by decide) (by decide)

/-- C8, evaluated on the code: a RAM cache hit whose value is empty, or has
three bytes, in a slice without spare capacity makes the handler panic on the
slice expression of line 101, before any decoding and before any further
tier or the origin is tried. -/
theorem short_ram_value_panics (g : Gob) :
    handler g (envRam (.hit ⟨[], 0⟩)) catRequest =
      ⟨.panicked, ⟨[], none, []⟩, [Event.ramGet catKey]⟩ ∧
    handler g (envRam (.hit ⟨[1, 2, 3], 0⟩)) catRequest =
      ⟨.panicked, ⟨[], none, []⟩, [Event.ramGet catKey]⟩ :=
  ⟨rfl, rfl⟩

/-- C9, refuted as stated: the RAM cache fails with an error other than
`ErrNotFound`; the handler makes no disk read and goes to the origin, whereas
with `ErrNotFound` on the same request it reads the disk cache first. -/
theorem ram_error_disk_get_cex :
    (envRam .otherErr).ramGet ((envRam .otherErr).sha1Sum catRequest.requestURI) = .otherErr ∧
    Event.diskGet (sprintfHex catKey) ∉ (handler sampleGob (envRam .otherErr) catRequest).trace ∧
    (handler sampleGob (envRam .otherErr) catRequest).trace
      = [Event.ramGet catKey, Event.getObject "bucket" "/images/cat.png"] ∧
    (handler sampleGob (envRam .errNotFound) catRequest).trace
      = [Event.ramGet catKey, Event.diskGet (sprintfHex catKey),
          Event.getObject "bucket" "/images/cat.png"] := by
  decide

/-- C9, amended: when the RAM cache read fails with an error other than
`ErrNotFound`, the handler treats it as a miss of the whole cache: it makes no
disk read and continues with the origin request. -/
theorem ram_error_goes_to_origin (g : Gob) (env : Env) (r : Request)
    (hram : env.ramGet (env.sha1Sum r.requestURI) = .otherErr) :
    handler g env r =
      fetchFromOrigin g env r.escapedPath (env.sha1Sum r.requestURI) ResponseWriter.new
        [Event.ramGet (env.sha1Sum r.requestURI)] ∧
    (handler g env r).trace =
      [Event.ramGet (env.sha1Sum r.requestURI), Event.getObject env.s3Bucket r.escapedPath] ∧
    ∀ keystr, Event.diskGet keystr ∉ (handler g env r).trace := by
  have hrun : handler g env r =
      fetchFromOrigin g env r.escapedPath (env.sha1Sum r.requestURI) ResponseWriter.new
        [Event.ramGet (env.sha1Sum r.requestURI)] := by
    simp [handler, hram]
  refine ⟨hrun, ?_, ?_⟩
  · rw [hrun, fetchFromOrigin_trace]
    simp
  · rw [hrun, fetchFromOrigin_trace]
    simp

/-- Witness of C9 amended: a failing RAM cache on the cat request. -/
theorem ram_error_goes_to_origin_witness :
    (handler sampleGob (envRam .otherErr) catRequest).trace =
      [Event.ramGet catKey, Event.getObject "bucket" "/images/cat.png"] ∧
    ∀ keystr, Event.diskGet keystr ∉ (handler sampleGob (envRam .otherErr) catRequest).trace :=
  (ram_error_goes_to_origin sampleGob (envRam .otherErr) catRequest rfl).2

/-- C10, evaluated on the code: the RAM cache holds the cat picture stored
with an empty etag; the response carries an ETag header, with the empty
string as its value. -/
theorem cached_empty_etag_header_set :
    sampleGob.decode (sampleEncode catMediaNoETag) = some catMediaNoETag ∧
    catMediaNoETag.ETag = "" ∧
    (handler sampleGob (envRam (.hit ⟨sampleEncode catMediaNoETag, 0⟩)) catRequest).w.headerValue
        "ETag" = some "" ∧
    handler sampleGob (envRam (.hit ⟨sampleEncode catMediaNoETag, 0⟩)) catRequest =
      ⟨.returned, ⟨[("ContentType", "image/png"), ("ETag", "")], some 200, [0xFF, 0xD8]⟩,
        [Event.ramGet catKey]⟩ := by
  decide

end S3Server
